import Mathlib

/-!
Shallow embedding of `SED/run_SED_fit.py`, a script that prepares data
files, derives a time window, builds a YAML configuration and drives an
external gamma-ray likelihood analysis engine.

Modelling conventions:
* Strings are Lean `String`s; Python single-character `str.replace`,
  `in`-substring tests, `split` and `os.path.join` are re-implemented
  over `List Char` so that they are fully kernel-computable.
* Python floats are modelled as exact rationals (`ℚ`).  Every numeric
  value the proved theorems evaluate is exactly representable, so no
  rounding behaviour is lost on those inputs.
* Fallible steps return `Except String` / pairs with an `Option String`
  error component; an exception raised by the script is the
  corresponding error value.
* Calls into the external engine and filesystem writes are recorded as
  an `Action` trace; the engine itself is an opaque collaborator.
-/

namespace RunSEDFit

/-- Python `s.replace('_', ' ')` (line 53): a single-character replace is a
character-wise map. -/
def replace_underscores (s : String) : String :=
  String.mk (s.data.map (fun c => if c = '_' then ' ' else c))

/-- Python `pat in s` substring test on file names (lines 14, 18, 29). -/
def strContains (s pat : String) : Bool :=
  decide (pat.data <:+: s.data)

/-- Python `str.split(ch)` over a character list (used for
`config['data']['evfile'].split('/')`, lines 93-96). -/
def splitOnChar (c : Char) : List Char → List (List Char)
  | [] => [[]]
  | ch :: rest =>
    let r := splitOnChar c rest
    if ch = c then [] :: r
    else
      match r with
      | h :: t => (ch :: h) :: t
      | [] => [[ch]]

/-- Python `path.split('/')[-1]`: the base file name kept by the config
builder (lines 93-96). -/
def baseName (s : String) : String :=
  String.mk ((splitOnChar '/' s.data).getLastD [])

/-- POSIX `os.path.join` for two components: an absolute second component
replaces the first, otherwise exactly one separator joins them. -/
def pathJoin (a b : String) : String :=
  if b.data.head? = some '/' then b
  else if a.data = [] then b
  else if a.data.getLast? = some '/' then a ++ b
  else a ++ "/" ++ b

/-- `MJDREF = 51910.0 + 7.428703703703703E-4` (line 39), as an exact
rational. -/
def MJDREF : ℚ := 51910 + 7428703703703703 / 10 ^ 19

/-- `MJD_to_MET(mjd_time) = (mjd_time - MJDREF) * 86400.` (lines 42-44). -/
def MJD_to_MET (mjd_time : ℚ) : ℚ :=
  (mjd_time - MJDREF) * 86400

/-- `MET_to_MJD(met_time) = met_time / 86400. + MJDREF` (lines 47-49). -/
def MET_to_MJD (met_time : ℚ) : ℚ :=
  met_time / 86400 + MJDREF

/-- Floor of a rational as an integer (`num.fdiv den` floors toward
negative infinity). -/
def floorQ (q : ℚ) : ℤ := q.num.fdiv q.den

/-- Ceiling of a rational as an integer. -/
def ceilQ (q : ℚ) : ℤ := -floorQ (-q)

/-- `np.arange(start, stop, step)` for a positive step: the values
`start + k * step` for `k < ⌈(stop - start) / step⌉`. -/
def arangeQ (start stop step : ℚ) : List ℚ :=
  (List.range (ceilQ ((stop - start) / step)).toNat).map
    (fun k => start + (k : ℚ) * step)

/-- Fuel-driven base-10 integer logarithm (the fuel makes the recursion
structural; `fuel = n` always suffices). -/
def natLog10Fuel : ℕ → ℕ → ℕ
  | 0, _ => 0
  | fuel + 1, n => if n < 10 then 0 else natLog10Fuel fuel (n / 10) + 1

/-- `np.log10` of an integer, modelled exactly where the float result is
exact, i.e. on powers of ten; `none` where the mathematical value is
irrational and only a float approximation exists. -/
def log10Exact (n : ℤ) : Option ℕ :=
  if 0 < n then
    let k := natLog10Fuel n.toNat n.toNat
    if (10 : ℤ) ^ k = n then some k else none
  else none

/-- The SED energy-bin edges,
`list(np.arange(np.log10(emin), np.log10(emax), 0.5))` (lines 155-156),
on inputs where `np.log10` is exact. -/
def sedLogeBins (emin emax : ℤ) : Option (List ℚ) := do
  let a ← log10Exact emin
  let b ← log10Exact emax
  pure (arangeQ a b (1 / 2))

/-! ### Python `str.format` mini-model

`run_fit` builds the default output directory name (lines 70-74) with

  `'{:.0f}_{:.0f}/{}_{}/'.format(target_src, MET_to_MJD(tmin), MET_to_MJD(tmax), int(emin), int(emax))`

— four placeholders fed five arguments: the first placeholder receives
the *source-name string*, the format fields are filled left to right,
and the trailing argument is ignored by `str.format`. -/

/-- A Python value handed to `str.format`. -/
inductive PyVal where
  | str (s : String)
  | int (z : ℤ)
  | float (q : ℚ)
deriving DecidableEq

/-- Python bankers rounding (`round` half to even), used by `'{:.0f}'`
on a float. -/
def roundHalfEven (q : ℚ) : ℤ :=
  let f := ⌊q⌋
  let frac := q - (f : ℚ)
  if frac < 1 / 2 then f
  else if 1 / 2 < frac then f + 1
  else if f % 2 = 0 then f else f + 1

/-- Error message raised by `str.format` when the numeric presentation
type `f` is applied to a `str` argument. -/
def formatErrorMsg : String :=
  "Unknown format code f for object of type str"

/-- Formatting one `'{:.0f}'` field: numbers are rendered with zero
decimals, a string argument raises a `ValueError`. -/
def formatField0f : PyVal → Except String String
  | .str _ => .error formatErrorMsg
  | .int z => .ok (toString z)
  | .float q => .ok (toString (roundHalfEven q))

/-- Formatting one bare `'{}'` field (`str()` of the value). -/
def formatFieldPlain : PyVal → Except String String
  | .str s => .ok s
  | .int z => .ok (toString z)
  | .float q => .ok (toString q)

/-- The default output-directory name build of lines 70-74:
`'{:.0f}_{:.0f}/{}_{}/'.format(...)` applied to the five supplied
arguments `target_src, float(MET_to_MJD(tmin)), float(MET_to_MJD(tmax)),
int(emin), int(emax)`.  Fields bind to arguments positionally, so the
first `'{:.0f}'` receives the source-name string and `int(emax)` is
left unconsumed. -/
def buildDefaultBasepath (target_src : String) (tminMJD tmaxMJD : ℚ)
    (emin emax : ℤ) : Except String String := do
  let f1 ← formatField0f (.str target_src)
  let f2 ← formatField0f (.float tminMJD)
  let f3 ← formatFieldPlain (.float tmaxMJD)
  let f4 ← formatFieldPlain (.int emin)
  let _unused := PyVal.int emax
  pure (f1 ++ "_" ++ f2 ++ "/" ++ f3 ++ "_" ++ f4 ++ "/")

/-! ### Data model -/

/-- The `selection` section of the configuration document.  The fields
the script never touches are collected in `rest`. -/
structure Selection where
  emin : ℤ
  emax : ℤ
  tmin : ℚ
  tmax : ℚ
  target : String
  rest : List (String × String)
deriving DecidableEq

/-- The `data` section of the configuration document. -/
structure DataSec where
  evfile : String
  scfile : String
  rest : List (String × String)
deriving DecidableEq

/-- The `model` section of the configuration document. -/
structure ModelSec where
  catalogs : List String
  rest : List (String × String)
deriving DecidableEq

/-- The configuration document (the YAML mapping of `default.yaml` /
`config.yaml`). -/
structure Config where
  selection : Selection
  data : DataSec
  model : ModelSec
  rest : List (String × String)
deriving DecidableEq

/-- The run arguments produced by the externally defined
`parseArguments()` (the spec lists them as command-line options). -/
structure Args where
  target_src : String
  emin : ℤ
  emax : ℤ
  time_range : Option (ℚ × ℚ)
  data_path : String
  xml_path : Option String
  use_3FGL : Bool
  free_radius : Option ℚ
  free_sources : Option (List String)
  src_gamma : Option ℚ
  free_norm : Bool
  free_diff : Bool
  retries : ℕ
  outfolder : Option String
  no_sed : Bool

/-- The pieces of the outside world the script reads: the data-directory
listing, the `TSTART`/`TSTOP` FITS headers of each event file, the
script directory (`os.path.dirname(os.path.abspath(__file__))`), path
existence, and the parsed template `default.yaml`. -/
structure Env where
  dataFiles : List String
  tstart : String → ℚ
  tstop : String → ℚ
  thisPath : String
  pathExists : String → Bool
  templateConfig : Config

/-- Everything the script *does*: filesystem writes and calls into the
external engine, in program order. -/
inductive Action where
  | writeEvents (path : String) (contents : List String)
  | renameFile (src dst : String)
  | makedirs (path : String)
  | writeConfig (path : String) (cfg : Config)
  | engineInit (configPath : String) (verbosity : ℕ)
  | engineSetup
  | freeSourcesRadius (distance : ℚ) (tsMin : ℚ) (tsMax : Option ℚ)
      (exclude : List String)
  | freeSource (name : String) (pars : Option String) (free : Bool)
  | setParameter (name par : String) (value : ℚ)
  | optimize
  | fit (retries : ℕ)
  | writeRoi (file : String)
  | bowtie (name : String)
  | saveNpy (path : String)
  | sed (name : String) (outfile : String) (logeBins : Option (List ℚ))
      (freePars : Option String) (freeRadius : Option ℚ)
deriving DecidableEq

/-- The observable outcome of a run: the actions performed, and the
exception message if one terminated the run. -/
structure RunOutcome where
  actions : List Action
  error : Option String
deriving DecidableEq

/-! ### File preparation, time window, config building -/

/-- Lines 13-16 of `setup_data_files`: if `events.txt` is absent, write
it with the full paths of every file whose name contains `PH`. -/
def eventsActions (folder : String) (files : List String) : List Action :=
  if "events.txt" ∈ files then []
  else
    [Action.writeEvents (pathJoin folder "events.txt")
      ((files.filter (fun f => strContains f "PH")).map
        (fun f => pathJoin folder f))]

/-- `setup_data_files(folder)` (lines 11-24) over the directory listing
`files`: the events-list step, then, if `spacecraft.fits` is absent,
rename the unique file whose name contains `SC` to it, or raise
`No Spacecraft File Available!` when there is no unique candidate.
Returns (actions performed, exception if raised). -/
def setup_data_files (folder : String) (files : List String) :
    List Action × Option String :=
  if "spacecraft.fits" ∈ files then (eventsActions folder files, none)
  else
    match files.filter (fun f => strContains f "SC") with
    | [sc] =>
      (eventsActions folder files ++ [Action.renameFile (pathJoin folder sc)
        (pathJoin folder "spacecraft.fits")], none)
    | _ => (eventsActions folder files, some "No Spacecraft File Available!")

/-- `get_time_window(folder)` (lines 27-36): over the files whose name
contains `PH`, `(np.min of the TSTART headers, np.max of the TSTOP
headers)`; `np.min`/`np.max` of an empty collection raise, modelled as
`none`. -/
def get_time_window (files : List String) (tstart tstop : String → ℚ) :
    Option (ℚ × ℚ) :=
  let phs := files.filter (fun f => strContains f "PH")
  match (phs.map tstart).minimum, (phs.map tstop).maximum with
  | (a : ℚ), (b : ℚ) => some (a, b)
  | _, _ => none

/-- Message of the `ValueError` `np.min` raises on an empty sequence. -/
def zeroSizeErrorMsg : String :=
  "zero-size array to reduction operation minimum which has no identity"

/-- Lines 59-65: the explicit mode converts both MJD bounds through
`MJD_to_MET`; the discovery mode scans the event-file headers. -/
def resolveTimeWindow (args : Args) (env : Env) : Except String (ℚ × ℚ) :=
  match args.time_range with
  | some (a, b) => .ok (MJD_to_MET a, MJD_to_MET b)
  | none =>
    match get_time_window env.dataFiles env.tstart env.tstop with
    | some tw => .ok tw
    | none => .error zeroSizeErrorMsg

/-- Lines 67-75: a supplied `outfolder` is used as is; otherwise the
default name is built by `buildDefaultBasepath` (from the *underscored*
`target_src` and the MJD round-trips of the resolved bounds) and joined
onto the script directory. -/
def resolveBasepath (args : Args) (env : Env) (tmin tmax : ℚ) :
    Except String String :=
  match args.outfolder with
  | some p => .ok p
  | none =>
    (buildDefaultBasepath args.target_src (MET_to_MJD tmin) (MET_to_MJD tmax)
      args.emin args.emax).map (fun s => pathJoin env.thisPath s)

/-- Lines 83-101: the template with `selection.emin/emax/tmin/tmax/target`
overwritten, the two data paths rejoined onto `data_path` keeping only
the template base names, and `model.catalogs` rebuilt from the optional
XML path plus the optional `3FGL` entry. -/
def build_config (template : Config) (args : Args) (tmin tmax : ℚ)
    (src : String) : Config :=
  { template with
    selection := { template.selection with
      emin := args.emin
      emax := args.emax
      tmin := tmin
      tmax := tmax
      target := src }
    data := { template.data with
      evfile := pathJoin args.data_path (baseName template.data.evfile)
      scfile := pathJoin args.data_path (baseName template.data.scfile) }
    model := { template.model with
      catalogs := args.xml_path.toList ++
        (if args.use_3FGL then ["3FGL"] else []) } }

/-! ### The engine protocol -/

/-- Lines 111-119: radius-based freeing takes precedence (`minmax_ts =
[2, None]`, excluding `isodiff` and `galdiff`); only otherwise is each
explicitly listed source freed. -/
def freeingTrace (free_radius : Option ℚ)
    (free_sources : Option (List String)) : List Action :=
  match free_radius with
  | some r => [.freeSourcesRadius r 2 none ["isodiff", "galdiff"]]
  | none =>
    match free_sources with
    | some l => l.map (fun s => .freeSource s none true)
    | none => []

/-- The `free_pars` value chosen by lines 122-130. -/
def targetFreePars (src_gamma : Option ℚ) (free_norm : Bool) :
    Option String :=
  match src_gamma with
  | some _ => some "norm"
  | none => if free_norm then some "norm" else none

/-- Lines 122-133: the three-way target configuration (fix the index /
free the normalisation / run the optimizer), followed in every branch
by un-freeing all target parameters and re-freeing `free_pars`. -/
def targetConfigTrace (src_gamma : Option ℚ) (free_norm : Bool)
    (src : String) : List Action :=
  (match src_gamma with
   | some g => [.setParameter src "Index" g]
   | none => if free_norm then [] else [.optimize]) ++
  [.freeSource src none false,
   .freeSource src (targetFreePars src_gamma free_norm) true]

/-- Lines 136-139: optionally free the normalisation of the two diffuse
components. -/
def diffTrace (free_diff : Bool) : List Action :=
  if free_diff then
    [.freeSource "galdiff" (some "norm") true,
     .freeSource "isodiff" (some "norm") true]
  else []

/-- `'llh_emin_{}_emax_{}.npy'.format(int(emin), int(emax))` (line 141). -/
def llhFile (emin emax : ℤ) : String :=
  "llh_emin_" ++ toString emin ++ "_emax_" ++ toString emax ++ ".npy"

/-- `'bowtie_emin_{}_emax_{}.npy'` (line 147). -/
def bowtieFile (emin emax : ℤ) : String :=
  "bowtie_emin_" ++ toString emin ++ "_emax_" ++ toString emax ++ ".npy"

/-- `'sed_emin_{}_emax_{}.fits'` (line 153). -/
def sedFile (emin emax : ℤ) : String :=
  "sed_emin_" ++ toString emin ++ "_emax_" ++ toString emax ++ ".fits"

/-- Lines 152-158: unless `no_sed`, one `gta.sed` call with the
half-open `np.arange` bin edges, the step-3 `free_pars` and the raw
`free_radius`. -/
def sedTrace (args : Args) (src : String) : List Action :=
  if args.no_sed then []
  else
    [.sed src (sedFile args.emin args.emax)
      (sedLogeBins args.emin args.emax)
      (targetFreePars args.src_gamma args.free_norm)
      args.free_radius]

/-- Everything after `setup_data_files` succeeds (lines 77-158):
`makedirs`, config write, engine construction and setup, source
freeing, target configuration, diffuse freeing, fit, ROI snapshot,
bowtie (saved under `basepath`) and the optional SED. -/
def postSetupTrace (args : Args) (env : Env) (src basepath : String)
    (tmin tmax : ℚ) : List Action :=
  (if env.pathExists basepath then [] else [.makedirs basepath]) ++
  [.writeConfig (pathJoin basepath "config.yaml")
      (build_config env.templateConfig args tmin tmax src),
   .engineInit (pathJoin basepath "config.yaml") 3,
   .engineSetup] ++
  freeingTrace args.free_radius args.free_sources ++
  targetConfigTrace args.src_gamma args.free_norm src ++
  diffTrace args.free_diff ++
  [.fit args.retries,
   .writeRoi (llhFile args.emin args.emax),
   .bowtie src,
   .saveNpy (pathJoin basepath (bowtieFile args.emin args.emax))] ++
  sedTrace args src

/-- `run_fit(args)` (lines 52-158).  The steps happen in source order:
time-window resolution (lines 59-65), output-directory naming (67-75),
`setup_data_files` (76), then the directory/config/engine sequence.  An
exception stops the run, keeping the actions already performed. -/
def run_fit (args : Args) (env : Env) : RunOutcome :=
  match resolveTimeWindow args env with
  | .error e => ⟨[], some e⟩
  | .ok (tmin, tmax) =>
    match resolveBasepath args env tmin tmax with
    | .error e => ⟨[], some e⟩
    | .ok basepath =>
      match setup_data_files args.data_path env.dataFiles with
      | (ops, some e) => ⟨ops, some e⟩
      | (ops, none) =>
        ⟨ops ++ postSetupTrace args env (replace_underscores args.target_src)
          basepath tmin tmax, none⟩

/-- The energy-bin edges of the first SED export found in a run trace. -/
def sedBinsOf (o : RunOutcome) : Option (List ℚ) :=
  o.actions.findSome?
    (fun a => match a with | .sed _ _ bins _ _ => bins | _ => none)

/-! ### Concrete fixtures used by witnesses and counterexamples -/

/-- A concrete parsed `default.yaml`. -/
def sampleTemplate : Config :=
  { selection :=
      { emin := 0, emax := 0, tmin := 0, tmax := 0, target := "",
        rest := [("zmax", "90")] },
    data :=
      { evfile := "/a/b/ft1.fits", scfile := "/a/b/ft2.fits", rest := [] },
    model := { catalogs := ["old"], rest := [("src_roiwidth", "15")] },
    rest := [("binning", "b")] }

/-- A concrete environment in which every step of a run succeeds. -/
def sampleEnv : Env :=
  { dataFiles := ["events.txt", "spacecraft.fits", "L1234PH00.fits"],
    tstart := fun _ => 239557417,
    tstop := fun _ => 239600000,
    thisPath := "/sed",
    pathExists := fun _ => false,
    templateConfig := sampleTemplate }

/-- The end-to-end scenario arguments of the spec: target `Crab_Nebula`,
`emin = 100`, `emax = 100000`, MJD range `[55000, 55010]`, no XML/3FGL
catalogs, SED enabled; an output folder is supplied so the run reaches
the engine. -/
def sampleArgs : Args :=
  { target_src := "Crab_Nebula", emin := 100, emax := 100000,
    time_range := some (55000, 55010), data_path := "/data",
    xml_path := none, use_3FGL := false, free_radius := some 3,
    free_sources := some ["srcA"], src_gamma := none, free_norm := false,
    free_diff := true, retries := 5, outfolder := some "/out",
    no_sed := false }

/-!
## Theorems
-/

/-- C4: for every MJD value `x`, `MET_to_MJD (MJD_to_MET x) = x`, exactly
over rational arithmetic. -/
theorem c4_mjd_met_roundtrip (x : ℚ) : MET_to_MJD (MJD_to_MET x) = x := by
  unfold MET_to_MJD MJD_to_MET
  field_simp

/-- C5: `MJD_to_MET` computes `(mjd - MJDREF) * 86400` with
`MJDREF = 51910 + 7.428703703703703e-4` exactly, and in explicit mode
both user-supplied MJD bounds are converted through it. -/
theorem c5_mjd_to_met_formula :
    (∀ x : ℚ, MJD_to_MET x = (x - MJDREF) * 86400 ∧
      MJDREF = 51910 + 7428703703703703 / 10 ^ 19) ∧
    ∀ (args : Args) (env : Env) (a b : ℚ), args.time_range = some (a, b) →
      resolveTimeWindow args env = .ok (MJD_to_MET a, MJD_to_MET b) := by
  refine ⟨fun x => ⟨rfl, rfl⟩, fun args env a b h => ?_⟩
  unfold resolveTimeWindow
  rw [h]

/-- C5 witness: the bounds 55000 and 55010 of the sample invocation are
both converted through `MJD_to_MET`. -/
theorem c5_witness :
    resolveTimeWindow sampleArgs sampleEnv =
      .ok (MJD_to_MET 55000, MJD_to_MET 55010) :=
  c5_mjd_to_met_formula.2 sampleArgs sampleEnv 55000 55010 rfl

/-- C2: with `outfolder = None`, the default output-directory format
call applies `'{:.0f}'` to the source-name string and raises; whenever
the run reaches that step (the time window resolved), it terminates
with the formatting error having performed no action at all. -/
theorem c2_default_outfolder_formatting_error :
    (∀ (t : String) (a b : ℚ) (e1 e2 : ℤ),
      buildDefaultBasepath t a b e1 e2 = .error formatErrorMsg) ∧
    ∀ (args : Args) (env : Env) (tw : ℚ × ℚ), args.outfolder = none →
      resolveTimeWindow args env = .ok tw →
      run_fit args env = ⟨[], some formatErrorMsg⟩ := by
  refine ⟨fun t a b e1 e2 => rfl, fun args env tw h1 h2 => ?_⟩
  obtain ⟨a, b⟩ := tw
  have hb : resolveBasepath args env a b = .error formatErrorMsg := by
    unfold resolveBasepath
    rw [h1]
    rfl
  unfold run_fit
  rw [h2]
  simp only [hb]

/-- C2 witness: the sample invocation with its output folder removed
performs nothing and stops with the formatting error. -/
theorem c2_witness :
    run_fit { sampleArgs with outfolder := none } sampleEnv =
      ⟨[], some formatErrorMsg⟩ :=
  c2_default_outfolder_formatting_error.2 { sampleArgs with outfolder := none }
    sampleEnv (MJD_to_MET 55000, MJD_to_MET 55010) rfl rfl

/-- C8: the built configuration is the template with exactly the five
selection fields overwritten, the two data paths rejoined onto the data
directory keeping only the template base names, and the catalog list
rebuilt from the optional XML path plus the optional `3FGL` entry; all
remaining template fields are unchanged.  The run writes exactly this
document to `basepath/config.yaml`. -/
theorem c8_config_frame :
    (∀ (template : Config) (args : Args) (tmin tmax : ℚ) (src : String),
      build_config template args tmin tmax src =
        { selection :=
            { emin := args.emin, emax := args.emax, tmin := tmin,
              tmax := tmax, target := src, rest := template.selection.rest },
          data :=
            { evfile := pathJoin args.data_path
                          (baseName template.data.evfile),
              scfile := pathJoin args.data_path
                          (baseName template.data.scfile),
              rest := template.data.rest },
          model :=
            { catalogs := args.xml_path.toList ++
                            (if args.use_3FGL then ["3FGL"] else []),
              rest := template.model.rest },
          rest := template.rest }) ∧
    ∀ (args : Args) (env : Env) (src basepath : String) (tmin tmax : ℚ),
      Action.writeConfig (pathJoin basepath "config.yaml")
          (build_config env.templateConfig args tmin tmax src) ∈
        postSetupTrace args env src basepath tmin tmax := by
  refine ⟨fun template args tmin tmax src => rfl,
    fun args env src basepath tmin tmax => ?_⟩
  unfold postSetupTrace
  simp

/-- C3 (amended): without a pre-existing `spacecraft.fits`, a unique
`SC`-marked file is renamed to `spacecraft.fits` and no exception is
raised; with zero or several candidates the run raises
`No Spacecraft File Available!`.  (The companion counterexample shows
this is *not* the only locally raised error condition.) -/
theorem c3_spacecraft_rename_or_error (folder : String) (files : List String)
    (hsc : "spacecraft.fits" ∉ files) :
    (∀ f, files.filter (fun g => strContains g "SC") = [f] →
      setup_data_files folder files =
        (eventsActions folder files ++
          [Action.renameFile (pathJoin folder f)
            (pathJoin folder "spacecraft.fits")], none)) ∧
    ((files.filter (fun g => strContains g "SC")).length ≠ 1 →
      (setup_data_files folder files).2 =
        some "No Spacecraft File Available!") := by
  constructor
  · intro f hf
    unfold setup_data_files
    rw [if_neg hsc, hf]
  · intro hlen
    unfold setup_data_files
    rw [if_neg hsc]
    rcases h : files.filter (fun g => strContains g "SC") with _ | ⟨a, _ | ⟨b, t⟩⟩
    · rfl
    · rw [h] at hlen
      simp at hlen
    · rfl

/-- C3 witness: a directory with one `PH` file and one `SC` file gets the
events list written and the spacecraft file renamed; a directory with no
`SC` candidate raises the spacecraft error. -/
theorem c3_witness :
    setup_data_files "/data" ["L1PH0.fits", "L1SC0.fits"] =
      ([Action.writeEvents (pathJoin "/data" "events.txt")
          [pathJoin "/data" "L1PH0.fits"],
        Action.renameFile (pathJoin "/data" "L1SC0.fits")
          (pathJoin "/data" "spacecraft.fits")], none) ∧
    (setup_data_files "/data" ["onlyevents"]).2 =
      some "No Spacecraft File Available!" := by
  constructor
  · exact ((c3_spacecraft_rename_or_error "/data" ["L1PH0.fits", "L1SC0.fits"]
      (by decide)).1 "L1SC0.fits" (by decide)).trans (by decide)
  · exact (c3_spacecraft_rename_or_error "/data" ["onlyevents"]
      (by decide)).2 (by decide)

/-- C3 counterexample (to the "only error condition raised locally"
part): an invocation with no output folder terminates with the
formatting error, a locally raised error distinct from the spacecraft
one. -/
theorem c3_only_error_counterexample :
    run_fit { sampleArgs with outfolder := none } sampleEnv =
      ⟨[], some formatErrorMsg⟩ ∧
    formatErrorMsg ≠ "No Spacecraft File Available!" :=
  ⟨rfl, by decide⟩

/-- Inverting a successful run: every step resolved and the trace is the
file-preparation actions followed by the post-setup protocol. -/
theorem run_fit_ok_elim (args : Args) (env : Env) (trace : List Action)
    (h : run_fit args env = ⟨trace, none⟩) :
    ∃ tmin tmax basepath ops,
      resolveTimeWindow args env = .ok (tmin, tmax) ∧
      resolveBasepath args env tmin tmax = .ok basepath ∧
      setup_data_files args.data_path env.dataFiles = (ops, none) ∧
      trace = ops ++ postSetupTrace args env
        (replace_underscores args.target_src) basepath tmin tmax := by
  unfold run_fit at h
  split at h
  · simp at h
  split at h
  · simp at h
  split at h
  · simp at h
  rename_i x2 tmin tmax h1 x1 basepath h2 x0 ops h3
  exact ⟨tmin, tmax, basepath, ops, h1, h2, h3, by simpa using h.symm⟩

/-- C6: when both `free_radius` and `free_sources` are supplied, the run
is identical to the run with the explicit source list dropped, and the
radius-based freeing call (TS threshold 2, `isodiff`/`galdiff`
excluded) is performed. -/
theorem c6_radius_precedence (args : Args) (env : Env) (r : ℚ)
    (l : List String) (hr : args.free_radius = some r)
    (hl : args.free_sources = some l) :
    run_fit args env = run_fit { args with free_sources := none } env ∧
    ∀ trace, run_fit args env = ⟨trace, none⟩ →
      Action.freeSourcesRadius r 2 none ["isodiff", "galdiff"] ∈ trace := by
  have hfree : ∀ x, freeingTrace args.free_radius x =
      [.freeSourcesRadius r 2 none ["isodiff", "galdiff"]] := by
    intro x
    rw [hr]
    rfl
  have hps : ∀ src bp tmin tmax, postSetupTrace args env src bp tmin tmax =
      postSetupTrace { args with free_sources := none } env src bp tmin tmax := by
    intro src bp tmin tmax
    unfold postSetupTrace
    dsimp only
    rw [hfree args.free_sources, hfree none]
    rfl
  have e1 : resolveTimeWindow { args with free_sources := none } env =
      resolveTimeWindow args env := rfl
  have e2 : ∀ a b, resolveBasepath { args with free_sources := none } env a b =
      resolveBasepath args env a b := fun _ _ => rfl
  have e3 : setup_data_files { args with free_sources := none }.data_path
      env.dataFiles = setup_data_files args.data_path env.dataFiles := rfl
  constructor
  · rcases h1 : resolveTimeWindow args env with e | ⟨tmin, tmax⟩
    · simp only [run_fit, e1, h1]
    · rcases h2 : resolveBasepath args env tmin tmax with e | bp
      · simp only [run_fit, e1, h1, e2, h2]
      · rcases h3 : setup_data_files args.data_path env.dataFiles with ⟨ops, err⟩
        rcases err with _ | e
        · simp only [run_fit, e1, h1, e2, h2, e3, h3]
          rw [hps]
        · simp only [run_fit, e1, h1, e2, h2, e3, h3]
  · intro trace h
    obtain ⟨tmin, tmax, bp, ops, h1, h2, h3, htr⟩ :=
      run_fit_ok_elim args env trace h
    rw [htr]
    unfold postSetupTrace
    rw [hfree args.free_sources]
    simp

/-- C6 witness: in the sample invocation both options are supplied; the
explicit list is ignored and the radius call happens. -/
theorem c6_witness :
    run_fit sampleArgs sampleEnv =
      run_fit { sampleArgs with free_sources := none } sampleEnv ∧
    Action.freeSourcesRadius 3 2 none ["isodiff", "galdiff"] ∈
      (run_fit sampleArgs sampleEnv).actions := by
  have h := c6_radius_precedence sampleArgs sampleEnv 3 ["srcA"] rfl rfl
  exact ⟨h.1, h.2 (run_fit sampleArgs sampleEnv).actions rfl⟩

/-- Shape of the file-preparation actions: only event-list writes. -/
theorem mem_eventsActions (folder : String) (files : List String) (a : Action)
    (ha : a ∈ eventsActions folder files) : ∃ p c, a = .writeEvents p c := by
  unfold eventsActions at ha
  split at ha
  · simp at ha
  · simp at ha
    exact ⟨_, _, ha⟩

/-- Shape of the `setup_data_files` actions: event-list writes and the
spacecraft rename only. -/
theorem mem_setupActions (folder : String) (files : List String) (a : Action)
    (ha : a ∈ (setup_data_files folder files).1) :
    (∃ p c, a = .writeEvents p c) ∨ ∃ p q, a = .renameFile p q := by
  unfold setup_data_files at ha
  split at ha
  · exact Or.inl (mem_eventsActions folder files a ha)
  · split at ha
    · simp only [List.mem_append] at ha
      rcases ha with ha | ha
      · exact Or.inl (mem_eventsActions folder files a ha)
      · simp at ha
        exact Or.inr ⟨_, _, ha⟩
    · exact Or.inl (mem_eventsActions folder files a ha)

theorem mem_freeingTrace (a : Action) (fr : Option ℚ)
    (fs : Option (List String)) (ha : a ∈ freeingTrace fr fs) :
    (∃ r, a = .freeSourcesRadius r 2 none ["isodiff", "galdiff"]) ∨
    ∃ s, s ∈ fs.getD [] ∧ a = .freeSource s none true := by
  unfold freeingTrace at ha
  rcases fr with _ | r
  · rcases fs with _ | l
    · simp at ha
    · simp only [List.mem_map] at ha
      obtain ⟨s, hs, rfl⟩ := ha
      exact Or.inr ⟨s, hs, rfl⟩
  · simp at ha
    exact Or.inl ⟨r, ha⟩

theorem mem_targetConfigTrace (a : Action) (g : Option ℚ) (fn : Bool)
    (src : String) (ha : a ∈ targetConfigTrace g fn src) :
    a = .optimize ∨ (∃ v, a = .setParameter src "Index" v) ∨
    ∃ p b, a = .freeSource src p b := by
  unfold targetConfigTrace at ha
  rcases g with _ | v
  · cases fn <;> simp at ha <;> rcases ha with ha | ha
    · exact Or.inl ha
    · rcases ha with ha | ha <;> exact Or.inr (Or.inr ⟨_, _, ha⟩)
    · exact Or.inr (Or.inr ⟨_, _, ha⟩)
    · exact Or.inr (Or.inr ⟨_, _, ha⟩)
  · simp at ha
    rcases ha with ha | ha | ha
    · exact Or.inr (Or.inl ⟨v, ha⟩)
    · exact Or.inr (Or.inr ⟨_, _, ha⟩)
    · exact Or.inr (Or.inr ⟨_, _, ha⟩)

theorem mem_diffTrace (a : Action) (fd : Bool) (ha : a ∈ diffTrace fd) :
    a = .freeSource "galdiff" (some "norm") true ∨
    a = .freeSource "isodiff" (some "norm") true := by
  unfold diffTrace at ha
  cases fd <;> simp at ha
  exact ha

theorem mem_sedTrace (a : Action) (args : Args) (src : String)
    (ha : a ∈ sedTrace args src) :
    a = .sed src (sedFile args.emin args.emax)
      (sedLogeBins args.emin args.emax)
      (targetFreePars args.src_gamma args.free_norm) args.free_radius := by
  unfold sedTrace at ha
  split at ha <;> simp at ha
  exact ha

/-- C7: every successful run un-frees all target parameters and then
re-frees exactly the `free_pars` selected by the three-way decision:
with a spectral-index override the index is set and `free_pars = norm`;
with the free-normalisation flag `free_pars = norm` and nothing else
happens; otherwise the optimizer runs and `free_pars = None`. -/
theorem c7_target_three_way (args : Args) (env : Env) (trace : List Action)
    (h : run_fit args env = ⟨trace, none⟩) :
    targetConfigTrace args.src_gamma args.free_norm
        (replace_underscores args.target_src) <:+: trace ∧
    [Action.freeSource (replace_underscores args.target_src) none false,
      Action.freeSource (replace_underscores args.target_src)
        (targetFreePars args.src_gamma args.free_norm) true] <:+:
      targetConfigTrace args.src_gamma args.free_norm
        (replace_underscores args.target_src) ∧
    (∀ g, args.src_gamma = some g →
      targetConfigTrace args.src_gamma args.free_norm
          (replace_underscores args.target_src) =
        [Action.setParameter (replace_underscores args.target_src) "Index" g,
          Action.freeSource (replace_underscores args.target_src) none false,
          Action.freeSource (replace_underscores args.target_src)
            (some "norm") true]) ∧
    (args.src_gamma = none → args.free_norm = true →
      targetConfigTrace args.src_gamma args.free_norm
          (replace_underscores args.target_src) =
        [Action.freeSource (replace_underscores args.target_src) none false,
          Action.freeSource (replace_underscores args.target_src)
            (some "norm") true]) ∧
    (args.src_gamma = none → args.free_norm = false →
      targetConfigTrace args.src_gamma args.free_norm
          (replace_underscores args.target_src) =
        [Action.optimize,
          Action.freeSource (replace_underscores args.target_src) none false,
          Action.freeSource (replace_underscores args.target_src)
            none true]) := by
  obtain ⟨tmin, tmax, bp, ops, h1, h2, h3, htr⟩ :=
    run_fit_ok_elim args env trace h
  refine ⟨?_, ?_, ?_, ?_, ?_⟩
  · rw [htr]
    unfold postSetupTrace
    refine ⟨ops ++ ((if env.pathExists bp then [] else [.makedirs bp]) ++
      [.writeConfig (pathJoin bp "config.yaml")
          (build_config env.templateConfig args tmin tmax
            (replace_underscores args.target_src)),
        .engineInit (pathJoin bp "config.yaml") 3, .engineSetup] ++
      freeingTrace args.free_radius args.free_sources),
      diffTrace args.free_diff ++
        [.fit args.retries, .writeRoi (llhFile args.emin args.emax),
          .bowtie (replace_underscores args.target_src),
          .saveNpy (pathJoin bp (bowtieFile args.emin args.emax))] ++
        sedTrace args (replace_underscores args.target_src), ?_⟩
    simp [List.append_assoc]
  · unfold targetConfigTrace
    exact List.IsSuffix.isInfix (List.suffix_append _ _)
  · intro g hg
    unfold targetConfigTrace targetFreePars
    rw [hg]
    rfl
  · intro hg hn
    unfold targetConfigTrace targetFreePars
    rw [hg, hn]
    rfl
  · intro hg hn
    unfold targetConfigTrace targetFreePars
    rw [hg, hn]
    rfl

/-- C7 witness: with a spectral-index override of 2 the sample run sets
the index and performs the un-free / re-free pair on the renamed
target. -/
theorem c7_witness :
    [Action.freeSource "Crab Nebula" none false,
      Action.freeSource "Crab Nebula" (some "norm") true] <:+:
      (run_fit { sampleArgs with src_gamma := some 2 } sampleEnv).actions ∧
    Action.setParameter "Crab Nebula" "Index" 2 ∈
      (run_fit { sampleArgs with src_gamma := some 2 } sampleEnv).actions := by
  have h := c7_target_three_way { sampleArgs with src_gamma := some 2 }
    sampleEnv (run_fit { sampleArgs with src_gamma := some 2 } sampleEnv).actions
    rfl
  refine ⟨(h.2.1).trans h.1, (h.1).subset ?_⟩
  rw [h.2.2.1 2 rfl]
  simp only [List.mem_cons]
  exact Or.inl (by decide)

/-- C9: in discovery mode, over a non-empty set of `PH` event files the
time window is the least `TSTART` and the greatest `TSTOP` across all of
them. -/
theorem c9_time_window_min_max (files : List String)
    (tstart tstop : String → ℚ)
    (hne : files.filter (fun f => strContains f "PH") ≠ []) :
    ∃ a b, get_time_window files tstart tstop = some (a, b) ∧
      a ∈ (files.filter (fun f => strContains f "PH")).map tstart ∧
      (∀ g ∈ files.filter (fun f => strContains f "PH"), a ≤ tstart g) ∧
      b ∈ (files.filter (fun f => strContains f "PH")).map tstop ∧
      (∀ g ∈ files.filter (fun f => strContains f "PH"), tstop g ≤ b) := by
  rcases hmin : ((files.filter (fun f => strContains f "PH")).map
      tstart).minimum with _ | a
  · rw [List.minimum_eq_none] at hmin
    simp only [List.map_eq_nil_iff] at hmin
    exact absurd hmin hne
  rcases hmax : ((files.filter (fun f => strContains f "PH")).map
      tstop).maximum with _ | b
  · rw [List.maximum_eq_none] at hmax
    simp only [List.map_eq_nil_iff] at hmax
    exact absurd hmax hne
  refine ⟨a, b, ?_, List.minimum_mem hmin, ?_, List.maximum_mem hmax, ?_⟩
  · unfold get_time_window
    dsimp only
    rw [hmin, hmax]
  · intro g hg
    exact List.minimum_le_of_mem (List.mem_map_of_mem tstart hg) hmin
  · intro g hg
    exact List.le_maximum_of_mem (List.mem_map_of_mem tstop hg) hmax

/-- C9 witness: the sample data directory has one `PH` file, and the
resolver returns its header values. -/
theorem c9_witness :
    sampleEnv.dataFiles.filter (fun f => strContains f "PH") ≠ [] ∧
    ∃ a b, get_time_window sampleEnv.dataFiles sampleEnv.tstart
        sampleEnv.tstop = some (a, b) ∧
      a ∈ (sampleEnv.dataFiles.filter (fun f => strContains f "PH")).map
        sampleEnv.tstart ∧
      (∀ g ∈ sampleEnv.dataFiles.filter (fun f => strContains f "PH"),
        a ≤ sampleEnv.tstart g) ∧
      b ∈ (sampleEnv.dataFiles.filter (fun f => strContains f "PH")).map
        sampleEnv.tstop ∧
      (∀ g ∈ sampleEnv.dataFiles.filter (fun f => strContains f "PH"),
        sampleEnv.tstop g ≤ b) :=
  ⟨by decide, c9_time_window_min_max sampleEnv.dataFiles sampleEnv.tstart
    sampleEnv.tstop (by decide)⟩

theorem mem_if_nil (a x : Action) (c : Prop) [Decidable c]
    (ha : a ∈ (if c then ([] : List Action) else [x])) : a = x := by
  split at ha <;> simpa using ha

/-- Case analysis of every action a successful run can contain. -/
theorem mem_trace_cases (args : Args) (env : Env) (trace : List Action)
    (a : Action) (h : run_fit args env = ⟨trace, none⟩) (ha : a ∈ trace) :
    (∃ p c, a = .writeEvents p c) ∨ (∃ p q, a = .renameFile p q) ∨
    (∃ p, a = .makedirs p) ∨
    (∃ p tmin tmax, a = .writeConfig p (build_config env.templateConfig args
      tmin tmax (replace_underscores args.target_src))) ∨
    (∃ p, a = .engineInit p 3) ∨ a = .engineSetup ∨
    (∃ r, a = .freeSourcesRadius r 2 none ["isodiff", "galdiff"]) ∨
    (∃ s, s ∈ args.free_sources.getD [] ∧ a = .freeSource s none true) ∨
    a = .optimize ∨
    (∃ v, a = .setParameter (replace_underscores args.target_src)
      "Index" v) ∨
    (∃ p b, a = .freeSource (replace_underscores args.target_src) p b) ∨
    a = .freeSource "galdiff" (some "norm") true ∨
    a = .freeSource "isodiff" (some "norm") true ∨
    a = .fit args.retries ∨ (∃ f, a = .writeRoi f) ∨
    a = .bowtie (replace_underscores args.target_src) ∨
    (∃ p, a = .saveNpy p) ∨
    (∃ o bins fp fr, a = .sed (replace_underscores args.target_src)
      o bins fp fr) := by
  obtain ⟨tmin, tmax, bp, ops, h1, h2, h3, htr⟩ :=
    run_fit_ok_elim args env trace h
  rw [htr] at ha
  unfold postSetupTrace at ha
  rcases List.mem_append.mp ha with ha | ha
  · have ha1 : a ∈ (setup_data_files args.data_path env.dataFiles).1 := by
      rw [h3]
      exact ha
    rcases mem_setupActions args.data_path env.dataFiles a ha1 with
      ⟨p, c, rfl⟩ | ⟨p, q, rfl⟩
    · exact Or.inl ⟨p, c, rfl⟩
    · exact Or.inr (Or.inl ⟨p, q, rfl⟩)
  rcases List.mem_append.mp ha with ha | ha
  case inr =>
    have := mem_sedTrace a args _ ha
    subst this
    refine Or.inr (Or.inr (Or.inr (Or.inr (Or.inr (Or.inr (Or.inr (Or.inr
      (Or.inr (Or.inr (Or.inr (Or.inr (Or.inr (Or.inr (Or.inr (Or.inr
      (Or.inr ⟨_, _, _, _, rfl⟩))))))))))))))))
  rcases List.mem_append.mp ha with ha | ha
  case inr =>
    simp only [List.mem_cons, List.not_mem_nil, or_false] at ha
    rcases ha with rfl | rfl | rfl | rfl
    · refine Or.inr (Or.inr (Or.inr (Or.inr (Or.inr (Or.inr (Or.inr (Or.inr
        (Or.inr (Or.inr (Or.inr (Or.inr (Or.inr (Or.inl rfl)))))))))))))
    · refine Or.inr (Or.inr (Or.inr (Or.inr (Or.inr (Or.inr (Or.inr (Or.inr
        (Or.inr (Or.inr (Or.inr (Or.inr (Or.inr (Or.inr (Or.inl
        ⟨_, rfl⟩))))))))))))))
    · refine Or.inr (Or.inr (Or.inr (Or.inr (Or.inr (Or.inr (Or.inr (Or.inr
        (Or.inr (Or.inr (Or.inr (Or.inr (Or.inr (Or.inr (Or.inr (Or.inl
        rfl)))))))))))))))
    · refine Or.inr (Or.inr (Or.inr (Or.inr (Or.inr (Or.inr (Or.inr (Or.inr
        (Or.inr (Or.inr (Or.inr (Or.inr (Or.inr (Or.inr (Or.inr (Or.inr
        (Or.inl ⟨_, rfl⟩))))))))))))))))
  rcases List.mem_append.mp ha with ha | ha
  case inr =>
    rcases mem_diffTrace a args.free_diff ha with rfl | rfl
    · refine Or.inr (Or.inr (Or.inr (Or.inr (Or.inr (Or.inr (Or.inr (Or.inr
        (Or.inr (Or.inr (Or.inr (Or.inl rfl)))))))))))
    · refine Or.inr (Or.inr (Or.inr (Or.inr (Or.inr (Or.inr (Or.inr (Or.inr
        (Or.inr (Or.inr (Or.inr (Or.inr (Or.inl rfl))))))))))))
  rcases List.mem_append.mp ha with ha | ha
  case inr =>
    rcases mem_targetConfigTrace a args.src_gamma args.free_norm _ ha with
      rfl | ⟨v, rfl⟩ | ⟨p, b, rfl⟩
    · refine Or.inr (Or.inr (Or.inr (Or.inr (Or.inr (Or.inr (Or.inr (Or.inr
        (Or.inl rfl))))))))
    · refine Or.inr (Or.inr (Or.inr (Or.inr (Or.inr (Or.inr (Or.inr (Or.inr
        (Or.inr (Or.inl ⟨v, rfl⟩)))))))))
    · refine Or.inr (Or.inr (Or.inr (Or.inr (Or.inr (Or.inr (Or.inr (Or.inr
        (Or.inr (Or.inr (Or.inl ⟨p, b, rfl⟩))))))))))
  rcases List.mem_append.mp ha with ha | ha
  case inr =>
    rcases mem_freeingTrace a args.free_radius args.free_sources ha with
      ⟨r, rfl⟩ | ⟨s, hs, rfl⟩
    · exact Or.inr (Or.inr (Or.inr (Or.inr (Or.inr (Or.inr (Or.inl
        ⟨r, rfl⟩))))))
    · exact Or.inr (Or.inr (Or.inr (Or.inr (Or.inr (Or.inr (Or.inr (Or.inl
        ⟨s, hs, rfl⟩)))))))
  rcases List.mem_append.mp ha with ha | ha
  case inr =>
    simp only [List.mem_cons, List.not_mem_nil, or_false] at ha
    rcases ha with rfl | rfl | rfl
    · exact Or.inr (Or.inr (Or.inr (Or.inl ⟨_, tmin, tmax, rfl⟩)))
    · exact Or.inr (Or.inr (Or.inr (Or.inr (Or.inl ⟨_, rfl⟩))))
    · exact Or.inr (Or.inr (Or.inr (Or.inr (Or.inr (Or.inl rfl)))))
  have := mem_if_nil a (.makedirs bp) (env.pathExists bp = true) ha
  exact Or.inr (Or.inr (Or.inl ⟨bp, this⟩))

/-- C10 (amended): in every successful run, every engine call that names
the target — the configuration target field, `set_parameter`, `bowtie`,
`sed` and the target `free_source` pair — uses the underscore-to-space
form of the run argument; `free_source` otherwise only receives
explicitly listed sources or the two diffuse component names. -/
theorem c10_target_name_replacement (args : Args) (env : Env)
    (trace : List Action) (h : run_fit args env = ⟨trace, none⟩) :
    (∀ n p v, Action.setParameter n p v ∈ trace →
      n = replace_underscores args.target_src) ∧
    (∀ n, Action.bowtie n ∈ trace →
      n = replace_underscores args.target_src) ∧
    (∀ n o bins fp fr, Action.sed n o bins fp fr ∈ trace →
      n = replace_underscores args.target_src) ∧
    (∀ p cfg, Action.writeConfig p cfg ∈ trace →
      cfg.selection.target = replace_underscores args.target_src) ∧
    (∀ n p b, Action.freeSource n p b ∈ trace →
      n = replace_underscores args.target_src ∨
      n ∈ args.free_sources.getD [] ∨ n = "galdiff" ∨ n = "isodiff") := by
  refine ⟨?_, ?_, ?_, ?_, ?_⟩
  · intro n p v hmem
    rcases mem_trace_cases args env trace _ h hmem with
      ⟨_, _, he⟩ | ⟨_, _, he⟩ | ⟨_, he⟩ | ⟨_, _, _, he⟩ | ⟨_, he⟩ | he |
      ⟨_, he⟩ | ⟨_, _, he⟩ | he | ⟨_, he⟩ | ⟨_, _, he⟩ | he | he | he |
      ⟨_, he⟩ | he | ⟨_, he⟩ | ⟨_, _, _, _, he⟩ <;> simp_all
  · intro n hmem
    rcases mem_trace_cases args env trace _ h hmem with
      ⟨_, _, he⟩ | ⟨_, _, he⟩ | ⟨_, he⟩ | ⟨_, _, _, he⟩ | ⟨_, he⟩ | he |
      ⟨_, he⟩ | ⟨_, _, he⟩ | he | ⟨_, he⟩ | ⟨_, _, he⟩ | he | he | he |
      ⟨_, he⟩ | he | ⟨_, he⟩ | ⟨_, _, _, _, he⟩ <;> simp_all
  · intro n o bins fp fr hmem
    rcases mem_trace_cases args env trace _ h hmem with
      ⟨_, _, he⟩ | ⟨_, _, he⟩ | ⟨_, he⟩ | ⟨_, _, _, he⟩ | ⟨_, he⟩ | he |
      ⟨_, he⟩ | ⟨_, _, he⟩ | he | ⟨_, he⟩ | ⟨_, _, he⟩ | he | he | he |
      ⟨_, he⟩ | he | ⟨_, he⟩ | ⟨_, _, _, _, he⟩ <;> simp_all
  · intro p cfg hmem
    rcases mem_trace_cases args env trace _ h hmem with
      ⟨_, _, he⟩ | ⟨_, _, he⟩ | ⟨_, he⟩ | ⟨_, _, _, he⟩ | ⟨_, he⟩ | he |
      ⟨_, he⟩ | ⟨_, _, he⟩ | he | ⟨_, he⟩ | ⟨_, _, he⟩ | he | he | he |
      ⟨_, he⟩ | he | ⟨_, he⟩ | ⟨_, _, _, _, he⟩ <;> simp_all [build_config]
  · intro n p b hmem
    rcases mem_trace_cases args env trace _ h hmem with
      ⟨_, _, he⟩ | ⟨_, _, he⟩ | ⟨_, he⟩ | ⟨_, _, _, he⟩ | ⟨_, he⟩ | he |
      ⟨_, he⟩ | ⟨_, _, he⟩ | he | ⟨_, he⟩ | ⟨_, _, he⟩ | he | he | he |
      ⟨_, he⟩ | he | ⟨_, he⟩ | ⟨_, _, _, _, he⟩ <;> simp_all

/-- C10 counterexample: the sample run succeeds and contains a
`free_source` call whose source name (`galdiff`) is not the
underscore-replaced target name, refuting the claim for *every*
`free_source` call. -/
theorem c10_free_source_name_counterexample :
    Action.freeSource "galdiff" (some "norm") true ∈
      (run_fit sampleArgs sampleEnv).actions ∧
    (run_fit sampleArgs sampleEnv).error = none ∧
    "galdiff" ≠ replace_underscores sampleArgs.target_src :=
  ⟨by decide, rfl, by decide⟩

/-- C10 witness: the raw underscored name is never passed to `bowtie`. -/
theorem c10_witness :
    Action.bowtie "Crab_Nebula" ∉ (run_fit sampleArgs sampleEnv).actions := by
  intro hmem
  have h := (c10_target_name_replacement sampleArgs sampleEnv
    (run_fit sampleArgs sampleEnv).actions rfl).2.1 "Crab_Nebula" hmem
  exact absurd h (by decide)

/-- Evaluating the SED bin edges at `emin = 100`, `emax = 100000`:
`np.arange(2.0, 5.0, 0.5)` is half-open, so `5.0` is *not* an edge. -/
theorem sedLogeBins_100_100000 :
    sedLogeBins 100 100000 = some [2, 5/2, 3, 7/2, 4, 9/2] := by
  have h1 : log10Exact 100 = some 2 := by decide
  have h2 : log10Exact 100000 = some 5 := by decide
  have hval : ((((5 : ℕ) : ℚ)) - ((2 : ℕ) : ℚ)) / (1/2) = 6 := by
    norm_num
  have hc : ceilQ (((((5 : ℕ) : ℚ)) - ((2 : ℕ) : ℚ)) / (1/2)) = 6 := by
    rw [hval]
    decide
  have hrange : List.range (Int.toNat 6) = [0, 1, 2, 3, 4, 5] := by decide
  unfold sedLogeBins
  rw [h1, h2]
  show some (arangeQ ((2 : ℕ) : ℚ) ((5 : ℕ) : ℚ) (1/2)) = _
  unfold arangeQ
  rw [hc, hrange]
  norm_num

/-- C1 counterexample: in the end-to-end scenario the exported SED bin
edges are `[2.0, 2.5, 3.0, 3.5, 4.0, 4.5]`, not the claimed list ending
at `5.0`. -/
theorem c1_sed_bins_endpoint_counterexample :
    sedBinsOf (run_fit sampleArgs sampleEnv) =
      some [2, 5/2, 3, 7/2, 4, 9/2] ∧
    ¬ sedBinsOf (run_fit sampleArgs sampleEnv) =
      some [2, 5/2, 3, 7/2, 4, 9/2, 5] := by
  have h1 : sedBinsOf (run_fit sampleArgs sampleEnv) =
      sedLogeBins 100 100000 := rfl
  have h2 := h1.trans sedLogeBins_100_100000
  refine ⟨h2, fun hcon => ?_⟩
  have h3 := Option.some.inj (h2.symm.trans hcon)
  have h4 := congrArg List.length h3
  simp at h4

/-- C1 (amended): the end-to-end scenario exports SED bin edges
`np.arange(log10 100, log10 100000, 0.5)`, i.e. 0.5-dex spaced edges
from 2.0 up to but *excluding* 5.0. -/
theorem c1_sed_bins_half_open :
    sedBinsOf (run_fit sampleArgs sampleEnv) = sedLogeBins 100 100000 ∧
    sedLogeBins 100 100000 = some [2, 5/2, 3, 7/2, 4, 9/2] :=
  ⟨rfl, sedLogeBins_100_100000⟩

end RunSEDFit
